import Mathlib

/-!
# Retail Analytics Copilot — verification of the orchestration pipeline

A shallow embedding of the hybrid retail-analytics agent:

* `src/agent/graph_hybrid.py`   — the LangGraph orchestration state machine
  (`HybridAgent`: nodes, conditional edges, validation/repair loop);
* `src/agent/dspy_signatures.py` — the post-processing done by the
  model-backed transform wrappers (`Router.forward`, `NL2SQL.forward`,
  `Synthesizer.forward`);
* `src/agent/tools/sqlite_tool.py` — `SQLiteTool.execute_sql`;
* `src/run_agent_hybrid.py`     — the batch driver loop of `process_batch`.

Python strings are modelled as `List Char`.  The model-backed transforms
(routing classification, query generation, answer synthesis), the ranking
retriever and the SQLite engine are external collaborators; they are
modelled as an explicit `Oracles` record of arbitrary functions, over which
all theorems quantify.

The `trace` field of the agent state is append-only and is never read by
any node or by any routing function in `graph_hybrid.py` (it is write-only
audit output); it is omitted from the embedded state.
-/

/-- Python strings, modelled as lists of characters. -/
abbrev PyStr := List Char

/-- The characters Python's `str.strip()` / `\s` treat as whitespace
(ASCII fragment; the documents and SQL handled here are ASCII). -/
def isPySpace (c : Char) : Bool :=
  c = ' ' || c = '\t' || c = '\n' || c = '\r' || c = '\x0b' || c = '\x0c'

/-- Python `str.strip()`: drop whitespace from both ends. -/
def pyStrip (l : PyStr) : PyStr :=
  ((l.dropWhile isPySpace).reverse.dropWhile isPySpace).reverse

/-- Python `str.startswith(pre)`. -/
def pyStartsWith : PyStr → PyStr → Bool
  | [], _ => true
  | _ :: _, [] => false
  | a :: as, b :: bs => a = b && pyStartsWith as bs

/-- Python `str.endswith(suf)`. -/
def pyEndsWith (suf l : PyStr) : Bool :=
  pyStartsWith suf.reverse l.reverse

/-- Python `needle in haystack` (substring containment). -/
def pyContainsSub (needle : PyStr) : PyStr → Bool
  | [] => needle.isEmpty
  | c :: t => pyStartsWith needle (c :: t) || pyContainsSub needle t

/-- Python `str.split(sep)` for a single-character separator
(`"".split(',') = [""]`: always one more piece than separators). -/
def pySplit (sep : Char) : PyStr → List PyStr
  | [] => [[]]
  | c :: t =>
    if c = sep then [] :: pySplit sep t
    else match pySplit sep t with
      | [] => [[c]]
      | p :: ps => (c :: p) :: ps

/-- Python `str.lower()` (ASCII). -/
def pyLower (l : PyStr) : PyStr := l.map Char.toLower

/-- Python `str.upper()` (ASCII). -/
def pyUpper (l : PyStr) : PyStr := l.map Char.toUpper

/-- Digit value of an ASCII digit character. -/
def digitVal (c : Char) : Nat := c.toNat - '0'.toNat

/-- Natural number denoted by a string of ASCII digits (most significant first). -/
def natOfDigits (l : PyStr) : Nat :=
  l.foldl (fun n c => n * 10 + digitVal c) 0

/--
Python's `float(s)` on a string, as a partial function to `ℚ`:
optional surrounding whitespace, an optional sign, and a plain decimal
literal (`digits`, `digits.digits`, `digits.`, `.digits`).  Exponents,
`inf`/`nan` and digit underscores are outside the modelled fragment (no
code path in this repository feeds them in); any other input is a parse
failure (`none`), which in Python raises `ValueError`.
-/
def pyFloat? (l : PyStr) : Option ℚ :=
  let t := pyStrip l
  let (neg, t) : Bool × PyStr :=
    match t with
    | '+' :: r => (false, r)
    | '-' :: r => (true, r)
    | _ => (false, t)
  let intPart := t.takeWhile Char.isDigit
  let rest := t.dropWhile Char.isDigit
  let (fracPart, rest) : PyStr × PyStr :=
    match rest with
    | '.' :: r => (r.takeWhile Char.isDigit, r.dropWhile Char.isDigit)
    | _ => ([], rest)
  if rest.isEmpty && !(intPart ++ fracPart).isEmpty then
    let mantissa : Int := natOfDigits (intPart ++ fracPart)
    some (mkRat (if neg then -mantissa else mantissa) (10 ^ fracPart.length))
  else
    none

/-- SQLite cell values (`REAL` floats carry no claim here and are not
distinguished beyond a rational payload). -/
inductive SqlValue where
  | intV (i : Int)
  | textV (s : PyStr)
  | nullV
  deriving DecidableEq

/-- A result row: the Python dict `{col: value}` built by `execute_sql`,
as an insertion-ordered association list. -/
abbrev SqlRow := List (PyStr × SqlValue)

/-- Python dict assignment `d[k] = v`: replace in place if the key exists,
else append. -/
def assocSet (k : PyStr) (v : SqlValue) : SqlRow → SqlRow
  | [] => [(k, v)]
  | (k', v') :: t => if k' = k then (k', v) :: t else (k', v') :: assocSet k v t

/-- The dict `{col: row[idx] for idx, col in enumerate(columns)}` built row
by row in `SQLiteTool.execute_sql` (sqlite3 guarantees each fetched row has
exactly `len(cursor.description)` entries, so the zip is exact). -/
def rowDict (cols : List PyStr) (row : List SqlValue) : SqlRow :=
  (cols.zip row).foldl (fun d kv => assocSet kv.1 kv.2 d) []

/-- The dictionary returned by `SQLiteTool.execute_sql`
(`{columns, rows, error}`). -/
structure SqlResult where
  columns : List PyStr
  rows : List SqlRow
  error : Option PyStr
  deriving DecidableEq

/-- Outcome of handing a statement to the underlying sqlite3 engine
(external collaborator): either the cursor succeeds with a description and
fetched rows, or some exception `e` is raised anywhere in the `try` body
(execute, fetch or commit) with message `str(e)`. -/
inductive DbOutcome where
  | ok (cols : List PyStr) (rows : List (List SqlValue))
  | raises (msg : PyStr)
  deriving DecidableEq

/-- The test `sql.strip().upper().startswith('SELECT')` — the read/write split used
by `SQLiteTool.execute_sql`. -/
def isSelectQuery (sql : PyStr) : Bool :=
  pyStartsWith "SELECT".toList (pyUpper (pyStrip sql))

/-- Embeds `SQLiteTool.execute_sql` (src/agent/tools/sqlite_tool.py:58-103):
never raises; SELECT-prefixed statements return columns and dict rows with
`error = None`, other statements return empty columns/rows with
`error = None`, and any engine exception is caught and returned as
`error = str(e)` with empty columns/rows. -/
def execute_sql (db : PyStr → DbOutcome) (sql : PyStr) : SqlResult :=
  match db sql with
  | .raises m => ⟨[], [], some m⟩
  | .ok cols rows =>
    if isSelectQuery sql then ⟨cols, rows.map (rowDict cols), none⟩
    else ⟨[], [], none⟩

/-- Whether `execute_sql` reaches the `self.conn.commit()` call: only on
the non-SELECT success branch. -/
def executeCommits (db : PyStr → DbOutcome) (sql : PyStr) : Bool :=
  match db sql with
  | .raises _ => false
  | .ok _ _ => !(isSelectQuery sql)

/-- A Python value as it flows untyped through the agent (answers,
raw transform outputs, batch-record fields).  `vobj` stands for any value
that `json.dumps` cannot serialize. -/
inductive PyVal where
  | vstr (s : PyStr)
  | vnum (q : ℚ)
  | vnone
  | vobj
  deriving DecidableEq

/-- Python `json.dumps` succeeds on everything here except opaque objects. -/
def jsonSerializable : PyVal → Bool
  | .vobj => false
  | _ => true

/-- Python `str(v)` as used by the validator's number check.  The numeric
and object renderings are abstracted (no claim inspects them); strings and
`None` are rendered exactly as Python does. -/
def pyStrOfVal : PyVal → PyStr
  | .vstr s => s
  | .vnum q => (toString q).toList
  | .vnone => "None".toList
  | .vobj => "<object>".toList

/-- Python `float(v)` as a partial numeric coercion: numbers coerce to
themselves, strings go through the decimal parser, `None` and objects
raise (`none`). -/
def pyFloatOfVal : PyVal → Option ℚ
  | .vnum q => some q
  | .vstr s => pyFloat? s
  | .vnone => none
  | .vobj => none

/-- A retrieved document passage, `{id, source, content, score}`
(the dict built in `retriever_node` from the retriever's chunk objects). -/
structure Chunk where
  id : PyStr
  source : PyStr
  content : PyStr
  score : ℚ
  deriving DecidableEq

/-! ## Constraint extractor (`planner_node`, graph_hybrid.py:191-222) -/

/-- Python `\w` (ASCII fragment): letters, digits, underscore. -/
def isWordChar (c : Char) : Bool := c.isAlphanum || c = '_'

/-- The twelve month-name alternatives of the date regex
`\b(January|...|December)\s+\d{4}\b`, in alternation order. -/
def monthNames : List PyStr :=
  ["January", "February", "March", "April", "May", "June", "July",
   "August", "September", "October", "November", "December"].map String.toList

/-- Case-insensitive match of `m` at the head of `l`, returning the
matched text in its original case. -/
def matchMonthName (l : PyStr) : List PyStr → Option PyStr
  | [] => none
  | m :: ms =>
    let pre := l.take m.length
    if pre.length = m.length && pyLower pre = pyLower m then some pre
    else matchMonthName l ms

/-- Attempt to match `(month)\s+\d{4}\b` at the head of `l` (the `\b`
before the month is checked by the caller).  Returns the month text as
matched (regex group 1, original case) and the total number of characters
consumed.  The trailing `\b` demands that the character after the four
digits, if any, is a non-word character — in particular a fifth digit
makes the match fail, exactly as in the Python regex. -/
def matchDateAt (l : PyStr) : Option (PyStr × Nat) :=
  match matchMonthName l monthNames with
  | none => none
  | some m =>
    let rest := l.drop m.length
    let ws := rest.takeWhile isPySpace
    if ws.isEmpty then none
    else
      let rest2 := rest.drop ws.length
      let digits := rest2.take 4
      if digits.length = 4 && digits.all Char.isDigit &&
          (match rest2.drop 4 with | [] => true | c :: _ => !isWordChar c) then
        some (m, m.length + ws.length + 4)
      else none

/-- Left-to-right, non-overlapping scan of `re.findall` for the date
pattern.  `prevWord` tracks whether the previous character is a word
character (for the leading `\b`); `fuel` is an upper bound on the number
of characters still to scan — every step consumes at least one character,
so `fuel = l.length` makes the scan exact. -/
def findDatesGo : Nat → Bool → PyStr → List PyStr
  | 0, _, _ => []
  | _, _, [] => []
  | fuel + 1, prevWord, c :: t =>
    match (if prevWord then none else matchDateAt (c :: t)) with
    | some (m, k) =>
      -- the last consumed character is a digit, hence a word character;
      -- a match consumes k ≥ 1 characters, so spending one unit of fuel
      -- keeps fuel ≥ length of the remaining input
      m :: findDatesGo fuel true ((c :: t).drop k)
    | none => findDatesGo fuel (isWordChar c) t

/-- Models `re.findall(r'\b(Month...)\s+\d{4}\b', content, re.IGNORECASE)`:
the list of matched month names (group 1), original case. -/
def findDates (content : PyStr) : List PyStr :=
  findDatesGo content.length false content

/-- The 0–2 constraint fragments contributed by one passage, as a function
of its `(content, source)` pair: a `Relevant dates: …` fragment when the
date regex matches, and a `KPI formula found in <source>` fragment when
the content contains the literal `Formula:` or `SELECT`. -/
def chunkPartsKey (p : PyStr × PyStr) : List PyStr :=
  (let dates := findDates p.1
   if dates.isEmpty then []
   else ["Relevant dates: ".toList ++ (List.intercalate ", ".toList dates)]) ++
  (if pyContainsSub "Formula:".toList p.1 || pyContainsSub "SELECT".toList p.1 then
    ["KPI formula found in ".toList ++ p.2]
   else [])

/-- Fragments of one chunk (reads only `content` and `source`). -/
def chunkParts (c : Chunk) : List PyStr := chunkPartsKey (c.content, c.source)

/-- The `constraints_parts` list accumulated over the retrieved chunks in order. -/
def constraintsParts : List Chunk → List PyStr
  | [] => []
  | c :: t => chunkParts c ++ constraintsParts t

/-- The `constraints` string computed by `planner_node`:
`"; ".join(constraints_parts) if constraints_parts else "No specific constraints"`. -/
def plannerConstraints (chunks : List Chunk) : PyStr :=
  let parts := constraintsParts chunks
  if parts.isEmpty then "No specific constraints".toList
  else List.intercalate "; ".toList parts

/-! ## Model-backed transforms and orchestration state
(`dspy_signatures.py`, `graph_hybrid.py`) -/

/-- Raw output of the synthesis transform (`self.predict(...)` inside
`Synthesizer.forward`), before any post-processing. -/
structure SynthRaw where
  final_answer : PyVal
  citations : PyVal
  confidence : PyVal
  explanation : PyStr
  deriving DecidableEq

/-- The external collaborators: the three model-backed transforms, the
ranking retriever, the SQLite engine and its schema summary.  All are
arbitrary functions; every theorem about the machine quantifies over
them. -/
structure Oracles where
  routerMode : PyStr → PyStr
  retrieve : PyStr → Nat → List Chunk
  nl2sqlSql : PyStr → PyStr → PyStr → PyStr
  synth : PyStr → PyStr → PyStr → PyStr → PyStr → SynthRaw
  db : PyStr → DbOutcome
  schema : PyStr

/-- Embeds `Router.forward` (dspy_signatures.py:69-86): lower-case, strip, and
coerce anything outside `{rag, sql, hybrid}` to `hybrid`. -/
def routerForward (raw : PyStr) : PyStr :=
  let mode := pyStrip (pyLower raw)
  if mode = "rag".toList || mode = "sql".toList || mode = "hybrid".toList then mode
  else "hybrid".toList

/-- Citation post-processing in `Synthesizer.forward`
(dspy_signatures.py:145-150): a string is split on commas, tokens
containing `::` are kept (test on the unstripped token) and stripped;
any non-string yields `[]`. -/
def parseCitations : PyVal → List PyStr
  | .vstr s =>
    ((pySplit ',' s).filter (fun c => pyContainsSub "::".toList c)).map pyStrip
  | _ => []

/-- Confidence post-processing in `Synthesizer.forward`
(dspy_signatures.py:152-157): numeric coercion, clamp to `[0, 1]`,
parse failure defaults to `0.5`. -/
def parseConfidence (v : PyVal) : ℚ :=
  match pyFloatOfVal v with
  | some c => max 0 (min 1 c)
  | none => mkRat 1 2

/-- Step `if sql.startswith("```sql"): sql = sql[6:]` (graph_hybrid.py:241-242). -/
def dropSqlTag (s : PyStr) : PyStr :=
  if pyStartsWith "```sql".toList s then s.drop 6 else s

/-- Step `if sql.startswith("```"): sql = sql[3:]` (graph_hybrid.py:243-244). -/
def dropOpenFence (s : PyStr) : PyStr :=
  if pyStartsWith "```".toList s then s.drop 3 else s

/-- Step `if sql.endswith("```"): sql = sql[:-3]` (graph_hybrid.py:245-246). -/
def dropCloseFence (s : PyStr) : PyStr :=
  if pyEndsWith "```".toList s then s.take (s.length - 3) else s

/-- SQL clean-up in `nl2sql_node` (graph_hybrid.py:239-247): strip, chop a
leading `"```sql"`, then a leading `"```"`, then a trailing `"```"`, strip
again. -/
def cleanSql (sql0 : PyStr) : PyStr :=
  pyStrip (dropCloseFence (dropOpenFence (dropSqlTag (pyStrip sql0))))

/-- The mutable session state of one run (`AgentState` in
graph_hybrid.py:17-44).  `sql_result` is `none` while the dict is still
the initial `{}` and `some r` once `executor_node` has stored a result
dict — this preserves Python's distinction between a missing `error` key
and an `error` key holding `None`.  The write-only `trace` field is
omitted (see the file header). -/
structure AgentState where
  id : PyStr
  question : PyStr
  format_hint : PyStr
  mode : PyStr
  retrieved_chunks : List Chunk
  constraints : PyStr
  sql : PyStr
  sql_result : Option SqlResult
  attempts : Nat
  final_answer : PyVal
  citations : List PyStr
  confidence : ℚ
  explanation : PyStr
  done : Bool
  deriving DecidableEq

/-- The graph nodes, plus the `END` pseudo-node. -/
inductive Node where
  | router | retriever | planner | nl2sql | executor | synthesizer
  | validateAndRepair | terminal
  deriving DecidableEq

/-- Truthiness of `state.get("sql_result", {}).get("error")`: the routing and
validation code treats a missing result dict, an `error` of `None`, and an
empty error string all as "no error". -/
def errTruthy (osr : Option SqlResult) : Bool :=
  match osr with
  | none => false
  | some r =>
    match r.error with
    | none => false
    | some e => !e.isEmpty

/-- Truthiness of `not sql_result.get("rows")`: missing dict or empty list. -/
def rowsFalsy (osr : Option SqlResult) : Bool :=
  match osr with
  | none => true
  | some r => r.rows.isEmpty

/-- The rendering of `prev_error` in the repair f-string of `nl2sql_node`:
`state.get("sql_result", {}).get("error", "")` interpolated by `f"{...}"`
(a present key holding `None` renders as the text `None`). -/
def prevErrStr (osr : Option SqlResult) : PyStr :=
  match osr with
  | none => []
  | some r =>
    match r.error with
    | none => "None".toList
    | some e => e

/-- The `constraints` argument handed to the query-generation transform by
`nl2sql_node` (graph_hybrid.py:227-235): the stored constraints, extended
on a repair entry (`attempts > 0`) with the prior error message and the
repair instruction. -/
def nl2sqlConstraintsArg (s : AgentState) : PyStr :=
  if 0 < s.attempts then
    s.constraints ++ " Previous SQL failed with: ".toList
      ++ prevErrStr s.sql_result ++ ". Please fix the SQL.".toList
  else s.constraints

/-! ## Node implementations (graph_hybrid.py:149-378) -/

/-- A minimal JSON rendering used to serialize result values for the
synthesis prompt.  String escaping and `indent=2` pretty-printing are not
reproduced: the rendered text is consumed only by the opaque synthesis
transform, never inspected by the orchestration. -/
def jsonOfValue : SqlValue → PyStr
  | .intV i => (toString i).toList
  | .textV s => '"' :: s ++ ['"']
  | .nullV => "null".toList

/-- JSON-ish rendering of one row dict. -/
def jsonOfRow (r : SqlRow) : PyStr :=
  '\x7b' :: List.intercalate ", ".toList
    (r.map (fun kv => '"' :: kv.1 ++ ['"', ':', ' '] ++ jsonOfValue kv.2)) ++ ['\x7d']

/-- JSON-ish rendering of a row list (`json.dumps(rows, indent=2)`). -/
def jsonOfRows (rs : List SqlRow) : PyStr :=
  '[' :: List.intercalate ", ".toList (rs.map jsonOfRow) ++ [']']

/-- The `retrieved_docs` text built by `synthesizer_node`
(graph_hybrid.py:286-293). -/
def renderDocs (chunks : List Chunk) : PyStr :=
  if chunks.isEmpty then "No documents retrieved".toList
  else
    List.intercalate "\n\n".toList
      (chunks.map (fun c => '[' :: c.id ++ "] ".toList ++ c.content.take 200 ++ "...".toList))

/-- The `sql_rows` text built by `synthesizer_node`
(graph_hybrid.py:296-305). -/
def renderSqlRows (osr : Option SqlResult) : PyStr :=
  if errTruthy osr then
    "SQL Error: ".toList ++ prevErrStr osr
  else if !rowsFalsy osr then
    jsonOfRows ((match osr with | some r => r.rows | none => []).take 5)
  else "No SQL results".toList

/-- Issue 1 of `validate_and_repair_node` (graph_hybrid.py:342-346):
format check when `format_hint == "number"`. -/
def fmtIssues (s : AgentState) : List PyStr :=
  if s.format_hint = "number".toList &&
      (pyFloat? ((pyStrOfVal s.final_answer).filter
        (fun c => !(c = '$') && !(c = ','))) |>.isNone) then
    ["Answer should be a number".toList]
  else []

/-- Issue 2 (graph_hybrid.py:349-352): JSON serializability. -/
def jsonIssues (s : AgentState) : List PyStr :=
  if !jsonSerializable s.final_answer then
    ["Answer is not JSON serializable".toList]
  else []

/-- Issue 3 (graph_hybrid.py:355-356): citations required for rag/hybrid. -/
def citationIssues (s : AgentState) : List PyStr :=
  if (s.mode = "rag".toList || s.mode = "hybrid".toList) && s.citations.isEmpty then
    ["Missing citations".toList]
  else []

/-- Issue 4 (graph_hybrid.py:359-363): for sql/hybrid, a truthy execution
error is reported, `elif` an empty row set is reported — the two branches
of the `if`/`elif` are mutually exclusive. -/
def sqlIssues (s : AgentState) : List PyStr :=
  if s.mode = "sql".toList || s.mode = "hybrid".toList then
    if errTruthy s.sql_result then
      ["SQL error: ".toList ++ prevErrStr s.sql_result]
    else if rowsFalsy s.sql_result then
      ["SQL returned no rows".toList]
    else []
  else []

/-- The ordered issue list computed by `validate_and_repair_node`. -/
def validateIssues (s : AgentState) : List PyStr :=
  fmtIssues s ++ jsonIssues s ++ citationIssues s ++ sqlIssues s

/-- State update of `validate_and_repair_node`:
`done = (len(issues) == 0) or (attempts >= 2)`. -/
def validateRun (s : AgentState) : AgentState :=
  { s with done := (validateIssues s).isEmpty || decide (2 ≤ s.attempts) }

/-- Execute one graph node on the state (the partial dict each Python node
returns, merged into the state).  `terminal` is absorbing. -/
def runNode (O : Oracles) : Node → AgentState → AgentState
  | .router, s => { s with mode := routerForward (O.routerMode s.question) }
  | .retriever, s => { s with retrieved_chunks := O.retrieve s.question 4 }
  | .planner, s => { s with constraints := plannerConstraints s.retrieved_chunks }
  | .nl2sql, s =>
    { s with sql := cleanSql (pyStrip
        (O.nl2sqlSql s.question (nl2sqlConstraintsArg s) O.schema)) }
  | .executor, s =>
    { s with sql_result := some (execute_sql O.db s.sql),
             attempts := s.attempts + 1 }
  | .synthesizer, s =>
    let raw := O.synth s.question s.format_hint (renderDocs s.retrieved_chunks)
      (renderSqlRows s.sql_result) s.sql
    { s with final_answer := raw.final_answer,
             citations := parseCitations raw.citations,
             confidence := parseConfidence raw.confidence,
             explanation := raw.explanation }
  | .validateAndRepair, s => validateRun s
  | .terminal, s => s

/-- The graph edges (graph_hybrid.py:79-111 and the three conditional
routing functions, lines 115-146), evaluated — as LangGraph does — on the
state *after* the node has run. -/
def nextNode (n : Node) (s : AgentState) : Node :=
  match n with
  | .router =>
    if s.mode = "rag".toList || s.mode = "hybrid".toList then .retriever else .planner
  | .retriever => .planner
  | .planner =>
    if s.mode = "sql".toList || s.mode = "hybrid".toList then .nl2sql else .synthesizer
  | .nl2sql => .executor
  | .executor => .synthesizer
  | .synthesizer => .validateAndRepair
  | .validateAndRepair =>
    if s.done then .terminal
    else if 2 ≤ s.attempts then .terminal
    else if errTruthy s.sql_result then .nl2sql
    else .synthesizer
  | .terminal => .terminal

/-- A configuration of the running graph: the node about to execute and
the current state. -/
structure Config where
  node : Node
  st : AgentState
  deriving DecidableEq

/-- One transition: run the pending node, then follow its edge. -/
def step (O : Oracles) (c : Config) : Config :=
  if c.node = .terminal then c
  else
    let s' := runNode O c.node c.st
    ⟨nextNode c.node s', s'⟩

/-- Apply `n` transitions. -/
def stepN (O : Oracles) : Nat → Config → Config
  | 0, c => c
  | n + 1, c => stepN O n (step O c)

/-- The initial state built by `HybridAgent.run` (graph_hybrid.py:392-408). -/
def initState (qid question format_hint : PyStr) : AgentState :=
  { id := qid, question := question, format_hint := format_hint,
    mode := [], retrieved_chunks := [], constraints := [], sql := [],
    sql_result := none, attempts := 0, final_answer := .vstr [],
    citations := [], confidence := 0, explanation := [], done := false }

/-- The initial configuration: entry point is the router. -/
def initConfig (qid question format_hint : PyStr) : Config :=
  ⟨.router, initState qid question format_hint⟩

theorem stepN_add (O : Oracles) (m n : Nat) (c : Config) :
    stepN O (m + n) c = stepN O m (stepN O n c) := by
  induction n generalizing c with
  | zero => rfl
  | succ n ih =>
    show stepN O (m + n + 1) c = _
    rw [show m + n + 1 = (m + n) + 1 from rfl]
    exact ih (step O c)

/-! ## Batch driver (`process_batch`, src/run_agent_hybrid.py:14-78) -/

/-- A parsed JSONL input record: a Python dict from string keys to values. -/
abbrev PyDict := List (PyStr × PyVal)

/-- Python `dict.get(key)` (no default): `none` when the key is absent. -/
def dictGet (d : PyDict) (k : PyStr) : Option PyVal :=
  match d with
  | [] => none
  | (k', v) :: t => if k' = k then some v else dictGet t k

/-- One output record of the batch driver (the dict written to the JSONL
output; the `trace` list is write-only and omitted as in `AgentState`). -/
structure RunRecord where
  id : PyVal
  question : PyVal
  final_answer : PyVal
  citations : List PyStr
  confidence : ℚ
  explanation : PyVal
  deriving DecidableEq

/-- A whole-run of `agent.run` as the batch driver sees it: either a
result record or an uncaught exception with message `str(e)`. -/
abbrev BatchRunner := PyVal → PyVal → PyVal → Except PyStr RunRecord

/-- Python `item.get("id", f"q{idx}")`. -/
def idArg (idx : Nat) (item : PyDict) : PyVal :=
  (dictGet item "id".toList).getD (.vstr ('q' :: (toString idx).toList))

/-- Python `item.get("question", "")`. -/
def questionArg (item : PyDict) : PyVal :=
  (dictGet item "question".toList).getD (.vstr [])

/-- Python `item.get("format_hint", "text")`. -/
def formatHintArg (item : PyDict) : PyVal :=
  (dictGet item "format_hint".toList).getD (.vstr "text".toList)

/-- Processing of one input record (run_agent_hybrid.py:48-70): run the
agent; an uncaught exception becomes a degraded record with zero
confidence, empty citations and the error text as explanation. -/
def processOne (run : BatchRunner) (idx : Nat) (item : PyDict) : RunRecord :=
  match run (idArg idx item) (questionArg item) (formatHintArg item) with
  | .ok r => r
  | .error e =>
    { id := idArg idx item, question := questionArg item,
      final_answer := .vstr "Error processing question".toList,
      citations := [], confidence := 0, explanation := .vstr e }

/-- The `for idx, item in enumerate(questions, 1)` loop body, results in
order. -/
def processBatchGo (run : BatchRunner) (idx : Nat) : List PyDict → List RunRecord
  | [] => []
  | item :: rest => processOne run idx item :: processBatchGo run (idx + 1) rest

/-- The results list produced by `process_batch` for a parsed batch. -/
def processBatch (run : BatchRunner) (items : List PyDict) : List RunRecord :=
  processBatchGo run 1 items

/-! ## Theorems -/

/-- Helper: the parsed confidence is always within `[0, 1]`. -/
theorem parseConfidence_bounds (v : PyVal) :
    0 ≤ parseConfidence v ∧ parseConfidence v ≤ 1 := by
  unfold parseConfidence
  cases pyFloatOfVal v with
  | none => norm_num
  | some c =>
    exact ⟨le_max_left 0 _, max_le (by norm_num) (min_le_left 1 c)⟩

/-- Claim C3: `SQLiteTool.execute_sql` never raises; a SELECT-prefixed
(read) query yields the column names, the dict rows and `error = None`; a
non-SELECT (write) statement yields empty columns and rows with
`error = None` and commits; any engine fault yields empty columns and rows
with the fault message in `error`. -/
theorem executeSql_contract (db : PyStr → DbOutcome) (sql : PyStr) :
    (∀ m, db sql = .raises m → execute_sql db sql = ⟨[], [], some m⟩) ∧
    (∀ cols rows, db sql = .ok cols rows →
      (isSelectQuery sql = true →
        execute_sql db sql = ⟨cols, rows.map (rowDict cols), none⟩) ∧
      (isSelectQuery sql = false →
        execute_sql db sql = ⟨[], [], none⟩ ∧ executeCommits db sql = true)) := by
  refine ⟨fun m h => ?_, fun cols rows h => ⟨fun hs => ?_, fun hs => ⟨?_, ?_⟩⟩⟩ <;>
    simp [execute_sql, executeCommits, h, *]

/-- Witness for C3: a concrete read query against a concrete engine. -/
theorem executeSql_contract_witness :
    (fun _ => DbOutcome.ok ["total".toList] [[SqlValue.intV 10]] :
        PyStr → DbOutcome) "SELECT COUNT(*) as total FROM Products".toList
      = .ok ["total".toList] [[SqlValue.intV 10]] ∧
    isSelectQuery "SELECT COUNT(*) as total FROM Products".toList = true ∧
    execute_sql (fun _ => DbOutcome.ok ["total".toList] [[SqlValue.intV 10]])
        "SELECT COUNT(*) as total FROM Products".toList
      = ⟨["total".toList], [[SqlValue.intV 10]].map (rowDict ["total".toList]), none⟩ :=
  ⟨rfl, by decide,
    ((executeSql_contract (fun _ => DbOutcome.ok ["total".toList] [[SqlValue.intV 10]])
        "SELECT COUNT(*) as total FROM Products".toList).2
      ["total".toList] [[SqlValue.intV 10]] rfl).1 (by decide)⟩

/-- Claim C9: the confidence stored in the session state by the
Synthesizing step is always in `[0, 1]`; a numeric value above 1 is
clamped to 1 (`"1.5"` yields 1), below 0 to 0, and a value that fails
numeric coercion defaults to `0.5` (`"abc"` yields `1/2`). -/
theorem confidence_clamped :
    (∀ (O : Oracles) (s : AgentState),
      0 ≤ (runNode O .synthesizer s).confidence ∧
      (runNode O .synthesizer s).confidence ≤ 1) ∧
    parseConfidence (.vstr "1.5".toList) = 1 ∧
    parseConfidence (.vstr "-0.5".toList) = 0 ∧
    parseConfidence (.vstr "abc".toList) = 1 / 2 := by
  refine ⟨fun O s => parseConfidence_bounds _, ?_, ?_, ?_⟩
  · have h : pyFloatOfVal (.vstr "1.5".toList) = some (mkRat 15 10) := by decide
    have h2 : mkRat 15 10 = (3 / 2 : ℚ) := by rw [Rat.mkRat_eq_div]; norm_num
    unfold parseConfidence
    rw [h, h2]
    norm_num
  · have h : pyFloatOfVal (.vstr "-0.5".toList) = some (mkRat (-5) 10) := by decide
    have h2 : mkRat (-5) 10 = (-(1 / 2) : ℚ) := by rw [Rat.mkRat_eq_div]; norm_num
    unfold parseConfidence
    rw [h, h2]
    norm_num
  · have h : pyFloatOfVal (.vstr "abc".toList) = none := by decide
    unfold parseConfidence
    rw [h, Rat.mkRat_eq_div]
    norm_num

/-- Helper: the constraint fragments depend only on the passages'
`(content, source)` projections. -/
theorem constraintsParts_congr (cs1 cs2 : List Chunk)
    (h : cs1.map (fun c => (c.content, c.source)) =
      cs2.map (fun c => (c.content, c.source))) :
    constraintsParts cs1 = constraintsParts cs2 := by
  induction cs1 generalizing cs2 with
  | nil =>
    cases cs2 with
    | nil => rfl
    | cons c2 t2 => simp at h
  | cons c t ih =>
    cases cs2 with
    | nil => simp at h
    | cons c2 t2 =>
      simp only [List.map_cons, List.cons.injEq, Prod.mk.injEq] at h
      show chunkParts c ++ constraintsParts t = chunkParts c2 ++ constraintsParts t2
      rw [chunkParts, chunkParts, h.1.1, h.1.2, ih t2 h.2]

/-- Claim C5 (amended): the Planning step is a function of the retrieved
passages' `content` and `source` fields only; the extracted hints are
joined with `"; "`, and when no hint is found the constraints string is
exactly the literal `"No specific constraints"` (capital `N`), never empty
or null. -/
theorem planner_constraints_spec :
    (∀ (O : Oracles) (s : AgentState),
      (runNode O .planner s).constraints = plannerConstraints s.retrieved_chunks) ∧
    (∀ chunks : List Chunk, constraintsParts chunks = [] →
      plannerConstraints chunks = "No specific constraints".toList) ∧
    (∀ chunks : List Chunk, constraintsParts chunks ≠ [] →
      plannerConstraints chunks =
        List.intercalate "; ".toList (constraintsParts chunks)) ∧
    (∀ cs1 cs2 : List Chunk,
      cs1.map (fun c => (c.content, c.source)) =
        cs2.map (fun c => (c.content, c.source)) →
      plannerConstraints cs1 = plannerConstraints cs2) := by
  refine ⟨fun O s => rfl, fun chunks h => ?_, fun chunks h => ?_, fun cs1 cs2 h => ?_⟩
  · simp [plannerConstraints, h]
  · simp [plannerConstraints, h]
  · unfold plannerConstraints
    rw [constraintsParts_congr cs1 cs2 h]

/-- Witness for C5: the empty passage list produces no fragment and the
literal fallback. -/
theorem planner_constraints_spec_witness :
    constraintsParts [] = [] ∧
    plannerConstraints [] = "No specific constraints".toList :=
  ⟨rfl, planner_constraints_spec.2.1 [] rfl⟩

/-- A passage whose content mentions a formula, filed under source `a.md`. -/
def chunkSrcA : Chunk :=
  ⟨"k1".toList, "a.md".toList, "Formula: units * price".toList, 0⟩

/-- The same content as `chunkSrcA`, filed under source `b.md`. -/
def chunkSrcB : Chunk :=
  ⟨"k1".toList, "b.md".toList, "Formula: units * price".toList, 0⟩

/-- Counterexample to C5 as stated: the no-hint fallback is
`"No specific constraints"`, not the claimed literal
`"no specific constraints"`; and two passage lists with identical contents
but different sources yield different constraints, so Planning is not a
function of passage content alone. -/
theorem planner_counterexample :
    plannerConstraints [] = "No specific constraints".toList ∧
    "No specific constraints".toList ≠ "no specific constraints".toList ∧
    chunkSrcA.content = chunkSrcB.content ∧
    plannerConstraints [chunkSrcA] ≠ plannerConstraints [chunkSrcB] := by
  refine ⟨by decide, by decide, by decide, by decide⟩

/-- Helper: a prefix matches itself followed by anything. -/
theorem pyStartsWith_self_append (pre l : PyStr) :
    pyStartsWith pre (pre ++ l) = true := by
  induction pre with
  | nil => rfl
  | cons a t ih => simp [pyStartsWith, ih]

/-- Helper: `dropWhile` keeps a list whose head fails the predicate. -/
theorem dropWhile_cons_false (p : Char → Bool) (c : Char) (l : PyStr)
    (h : p c = false) : List.dropWhile p (c :: l) = c :: l := by
  simp [List.dropWhile_cons, h]

/-- Helper: a backtick is not whitespace, so `dropWhile` stops at it. -/
theorem dropWhile_space_grave (X : PyStr) :
    List.dropWhile isPySpace ('`' :: X) = '`' :: X :=
  dropWhile_cons_false _ _ _ rfl

/-- Helper: `strip` is the identity when both ends survive `dropWhile`. -/
theorem pyStrip_eq_self (l : PyStr) (h1 : List.dropWhile isPySpace l = l)
    (h2 : List.dropWhile isPySpace l.reverse = l.reverse) : pyStrip l = l := by
  unfold pyStrip
  rw [h1, h2, List.reverse_reverse]

/-- Helper: a string wrapped in backticks at both ends is already
stripped. -/
theorem pyStrip_grave_wrap (X : PyStr) :
    pyStrip (('`' :: X) ++ "```".toList) = ('`' :: X) ++ "```".toList := by
  apply pyStrip_eq_self
  · exact dropWhile_space_grave _
  · rw [List.reverse_append]
    exact dropWhile_space_grave _

/-- Helper: a list headed by a non-backtick does not start with the
three-backtick fence. -/
theorem pyStartsWith_fence_false (c : Char) (X : PyStr) (h : ('`' : Char) ≠ c) :
    pyStartsWith "```".toList (c :: X) = false := by
  simp [pyStartsWith, h]

/-- Helper: anything followed by the fence ends with the fence. -/
theorem pyEndsWith_fence (X : PyStr) :
    pyEndsWith "```".toList (X ++ "```".toList) = true := by
  unfold pyEndsWith
  rw [List.reverse_append]
  exact pyStartsWith_self_append "```".toList.reverse X.reverse

/-- Helper: appending the fence cannot create an `sql` tag match that was
not already there. -/
theorem pyStartsWith_sql_append_fence (X : PyStr)
    (h : pyStartsWith "sql".toList X = false) :
    pyStartsWith "sql".toList (X ++ "```".toList) = false := by
  match X with
  | [] => decide
  | [a] => simp [pyStartsWith]
  | [a, b] => simp [pyStartsWith]
  | a :: b :: c :: rest =>
    simp [pyStartsWith] at h ⊢
    exact h

/-- Helper: the strip of a backtick-delimited string is itself. -/
theorem pyStrip_fenced (A : PyStr) (I : PyStr)
    (hA : ∃ X, A = '`' :: X) :
    pyStrip (A ++ (I ++ "```".toList)) = A ++ (I ++ "```".toList) := by
  obtain ⟨X, rfl⟩ := hA
  apply pyStrip_eq_self
  · exact dropWhile_space_grave _
  · rw [List.reverse_append, List.reverse_append]
    exact dropWhile_space_grave _

/-- Helper: clean-up of a query fenced as ` ```sql … ``` `. -/
theorem cleanSql_fenced_sql (inner : PyStr) (hne : inner ≠ []) (hb : '`' ∉ inner) :
    cleanSql ("```sql".toList ++ inner ++ "```".toList) = pyStrip inner := by
  obtain ⟨c, t, rfl⟩ : ∃ c t, inner = c :: t := by
    cases inner with
    | nil => exact absurd rfl hne
    | cons c t => exact ⟨c, t, rfl⟩
  have hc : ('`' : Char) ≠ c := fun h => hb (h ▸ List.mem_cons_self _ _)
  unfold cleanSql
  rw [List.append_assoc]
  rw [pyStrip_fenced "```sql".toList (c :: t) ⟨"``sql".toList, rfl⟩]
  rw [show dropSqlTag ("```sql".toList ++ (c :: t ++ "```".toList))
      = c :: t ++ "```".toList by
    unfold dropSqlTag
    rw [pyStartsWith_self_append]
    simp only [if_true]
    rw [show (6 : Nat) = ("```sql".toList : PyStr).length from rfl, List.drop_left]]
  rw [show dropOpenFence (c :: t ++ "```".toList) = c :: t ++ "```".toList by
    unfold dropOpenFence
    rw [show ((c :: t ++ "```".toList : PyStr)) = c :: (t ++ "```".toList) from rfl]
    rw [pyStartsWith_fence_false c _ hc]
    simp]
  rw [show dropCloseFence (c :: t ++ "```".toList) = c :: t by
    unfold dropCloseFence
    rw [pyEndsWith_fence]
    simp only [if_true]
    rw [show ((c :: t ++ "```".toList : PyStr)).length - 3 = (c :: t).length by
      simp [List.length_append]]
    rw [List.take_left]]

/-- Helper: clean-up of a query fenced as ` ``` … ``` ` with no language
tag (and not accidentally starting with the letters `sql`). -/
theorem cleanSql_fenced_plain (inner : PyStr) (hne : inner ≠ []) (hb : '`' ∉ inner)
    (hsql : pyStartsWith "sql".toList inner = false) :
    cleanSql ("```".toList ++ inner ++ "```".toList) = pyStrip inner := by
  obtain ⟨c, t, rfl⟩ : ∃ c t, inner = c :: t := by
    cases inner with
    | nil => exact absurd rfl hne
    | cons c t => exact ⟨c, t, rfl⟩
  have hc : ('`' : Char) ≠ c := fun h => hb (h ▸ List.mem_cons_self _ _)
  unfold cleanSql
  rw [List.append_assoc]
  rw [pyStrip_fenced "```".toList (c :: t) ⟨"``".toList, rfl⟩]
  rw [show dropSqlTag ("```".toList ++ (c :: t ++ "```".toList))
      = "```".toList ++ (c :: t ++ "```".toList) by
    unfold dropSqlTag
    rw [show pyStartsWith "```sql".toList ("```".toList ++ (c :: t ++ "```".toList))
        = pyStartsWith "sql".toList (c :: t ++ "```".toList) by
      simp [pyStartsWith]]
    rw [show ((c :: t ++ "```".toList : PyStr)) = (c :: t) ++ "```".toList from rfl]
    rw [pyStartsWith_sql_append_fence _ hsql]
    simp]
  rw [show dropOpenFence ("```".toList ++ (c :: t ++ "```".toList))
      = c :: t ++ "```".toList by
    unfold dropOpenFence
    rw [pyStartsWith_self_append]
    simp only [if_true]
    rw [show (3 : Nat) = ("```".toList : PyStr).length from rfl, List.drop_left]]
  rw [show dropCloseFence (c :: t ++ "```".toList) = c :: t by
    unfold dropCloseFence
    rw [show ((c :: t ++ "```".toList : PyStr)) = (c :: t) ++ "```".toList from rfl]
    rw [pyEndsWith_fence]
    simp only [if_true]
    rw [show (((c :: t) ++ "```".toList : PyStr)).length - 3 = (c :: t).length by
      simp [List.length_append]]
    rw [List.take_left]]

/-- Claim C4 (amended): the Generating step stores the transform output
after stripping surrounding whitespace, a leading literal ` ```sql ` or a
leading bare ` ``` ` delimiter, and a trailing ` ``` ` delimiter.  Only the
specific language tag `sql` is removed; any other language tag after the
opening delimiter survives into the stored query. -/
theorem nl2sql_fence_stripping :
    (∀ (O : Oracles) (s : AgentState),
      (runNode O .nl2sql s).sql =
        cleanSql (pyStrip (O.nl2sqlSql s.question (nl2sqlConstraintsArg s) O.schema))) ∧
    (∀ inner : PyStr, inner ≠ [] → '`' ∉ inner →
      cleanSql ("```sql".toList ++ inner ++ "```".toList) = pyStrip inner) ∧
    (∀ inner : PyStr, inner ≠ [] → '`' ∉ inner →
      pyStartsWith "sql".toList inner = false →
      cleanSql ("```".toList ++ inner ++ "```".toList) = pyStrip inner) := by
  refine ⟨fun O s => ?_, cleanSql_fenced_sql, cleanSql_fenced_plain⟩
  rfl

/-- Witness for C4: a concrete ` ```sql `-fenced query is unwrapped. -/
theorem nl2sql_fence_stripping_witness :
    ("SELECT 1".toList ≠ ([] : PyStr) ∧ '`' ∉ "SELECT 1".toList) ∧
    cleanSql ("```sql".toList ++ "SELECT 1".toList ++ "```".toList) =
      pyStrip "SELECT 1".toList :=
  ⟨⟨by decide, by decide⟩,
    nl2sql_fence_stripping.2.1 "SELECT 1".toList (by decide) (by decide)⟩

/-- Oracles for the C4 counterexample: the query-generation transform
returns a query fenced with a `python` language tag. -/
def tagOracles : Oracles :=
  { routerMode := fun _ => [],
    retrieve := fun _ _ => [],
    nl2sqlSql := fun _ _ _ => "```python\nSELECT 1\n```".toList,
    synth := fun _ _ _ _ _ =>
      { final_answer := .vstr [], citations := .vstr [],
        confidence := .vnone, explanation := [] },
    db := fun _ => .raises [],
    schema := [] }

/-- Counterexample to C4 as stated: a code fence whose language tag is
`python` is not fully stripped — the tag survives into the stored query,
so it is not the case that "any language tag" is removed. -/
theorem nl2sql_fence_counterexample :
    (runNode tagOracles .nl2sql (initState "q1".toList "q".toList "text".toList)).sql
      = "python\nSELECT 1".toList ∧
    "python\nSELECT 1".toList ≠ "SELECT 1".toList := by
  constructor
  · rw [show (runNode tagOracles .nl2sql
        (initState "q1".toList "q".toList "text".toList)).sql
      = cleanSql (pyStrip ("```python\nSELECT 1\n```".toList)) from rfl]
    decide
  · decide

/-- Claim C8: on a repair entry into Generating (`attempts > 0`), the
prior execution's error message plus the repair instruction are appended
to the constraints passed to the query-generation transform, while the
`constraints` field stored in the state is left unchanged by the step. -/
theorem nl2sql_repair_constraints (O : Oracles) (s : AgentState)
    (h : 0 < s.attempts) :
    (runNode O .nl2sql s).constraints = s.constraints ∧
    nl2sqlConstraintsArg s =
      s.constraints ++ " Previous SQL failed with: ".toList
        ++ prevErrStr s.sql_result ++ ". Please fix the SQL.".toList ∧
    (runNode O .nl2sql s).sql =
      cleanSql (pyStrip (O.nl2sqlSql s.question (nl2sqlConstraintsArg s) O.schema)) := by
  refine ⟨?_, ?_, ?_⟩
  · simp [runNode]
  · unfold nl2sqlConstraintsArg
    simp [h]
  · simp [runNode]

/-- A state one failed execution into a run, used by several witnesses. -/
def repairState : AgentState :=
  { initState "q1".toList "q".toList "text".toList with
    mode := "sql".toList,
    sql := "SELECT x".toList,
    sql_result := some ⟨[], [], some "no such column: x".toList⟩,
    attempts := 1 }

/-- Witness for C8: the repair suffix at a concrete failed state. -/
theorem nl2sql_repair_constraints_witness :
    0 < repairState.attempts ∧
    ((runNode tagOracles .nl2sql repairState).constraints = repairState.constraints ∧
      nl2sqlConstraintsArg repairState =
        repairState.constraints ++ " Previous SQL failed with: ".toList
          ++ prevErrStr repairState.sql_result ++ ". Please fix the SQL.".toList ∧
      (runNode tagOracles .nl2sql repairState).sql =
        cleanSql (pyStrip (tagOracles.nl2sqlSql repairState.question
          (nl2sqlConstraintsArg repairState) tagOracles.schema))) :=
  ⟨by decide, nl2sql_repair_constraints tagOracles repairState (by decide)⟩

/-- Helper: the format check contributes only its fixed message. -/
theorem mem_fmtIssues (s : AgentState) (x : PyStr) (h : x ∈ fmtIssues s) :
    x = "Answer should be a number".toList := by
  unfold fmtIssues at h
  split at h
  · simpa using h
  · simp at h

/-- Helper: the serializability check contributes only its fixed message. -/
theorem mem_jsonIssues (s : AgentState) (x : PyStr) (h : x ∈ jsonIssues s) :
    x = "Answer is not JSON serializable".toList := by
  unfold jsonIssues at h
  split at h
  · simpa using h
  · simp at h

/-- Helper: the citation check contributes only its fixed message. -/
theorem mem_citationIssues (s : AgentState) (x : PyStr) (h : x ∈ citationIssues s) :
    x = "Missing citations".toList := by
  unfold citationIssues at h
  split at h
  · simpa using h
  · simp at h

/-- Helper: an `SQL error:` issue is distinct from every other issue
message, whatever the interpolated error text. -/
theorem sqlErr_ne_messages (e : PyStr) :
    "SQL error: ".toList ++ e ≠ "SQL returned no rows".toList ∧
    "SQL error: ".toList ++ e ≠ "Answer should be a number".toList ∧
    "SQL error: ".toList ++ e ≠ "Answer is not JSON serializable".toList ∧
    "SQL error: ".toList ++ e ≠ "Missing citations".toList := by
  refine ⟨fun h => ?_, fun h => ?_, fun h => ?_, fun h => ?_⟩ <;>
  · have h5 : ("SQL error: ".toList ++ e).take 5 = "SQL e".toList := rfl
    rw [h] at h5
    exact absurd h5 (by decide)

/-- Claim C2 (amended): for `mode ∈ {sql, hybrid}` the Validator's
execution-error check and its at-least-one-row check are mutually
exclusive (`if`/`elif`): when the last execution carried a (non-empty)
error message, only the `SQL error:` issue is reported and the no-rows
issue is suppressed, even if the row set is also empty; the
`SQL returned no rows` issue fires exactly when there is no (truthy)
error and the row set is empty. -/
theorem validator_sql_checks (s : AgentState)
    (hm : s.mode = "sql".toList ∨ s.mode = "hybrid".toList) :
    (∀ r e, s.sql_result = some r → r.error = some e → e ≠ [] →
      ("SQL error: ".toList ++ e) ∈ validateIssues s ∧
      "SQL returned no rows".toList ∉ validateIssues s) ∧
    ((errTruthy s.sql_result = false → rowsFalsy s.sql_result = true →
      "SQL returned no rows".toList ∈ validateIssues s ∧
      ∀ e : PyStr, ("SQL error: ".toList ++ e) ∉ validateIssues s)) := by
  constructor
  · intro r e hr he hne
    have het : errTruthy s.sql_result = true := by
      simp [errTruthy, hr, he, hne]
    have hs : sqlIssues s = ["SQL error: ".toList ++ e] := by
      unfold sqlIssues
      rcases hm with h | h <;> simp [h, errTruthy, prevErrStr, hr, he, hne]
    constructor
    · unfold validateIssues
      rw [hs]
      simp
    · unfold validateIssues
      rw [hs]
      intro hmem
      rcases List.mem_append.1 hmem with hmem | hmem
      · rcases List.mem_append.1 hmem with hmem | hmem
        · rcases List.mem_append.1 hmem with hmem | hmem
          · exact absurd (mem_fmtIssues s _ hmem) (by decide)
          · exact absurd (mem_jsonIssues s _ hmem) (by decide)
        · exact absurd (mem_citationIssues s _ hmem) (by decide)
      · simp at hmem
  · intro hef hrt
    have hs : sqlIssues s = ["SQL returned no rows".toList] := by
      unfold sqlIssues
      rcases hm with h | h <;> simp [h, hef, hrt]
    constructor
    · unfold validateIssues
      rw [hs]
      simp
    · intro e hmem
      unfold validateIssues at hmem
      rw [hs] at hmem
      rcases List.mem_append.1 hmem with hmem | hmem
      · rcases List.mem_append.1 hmem with hmem | hmem
        · rcases List.mem_append.1 hmem with hmem | hmem
          · exact absurd (mem_fmtIssues s _ hmem) ((sqlErr_ne_messages e).2.1)
          · exact absurd (mem_jsonIssues s _ hmem) ((sqlErr_ne_messages e).2.2.1)
        · exact absurd (mem_citationIssues s _ hmem) ((sqlErr_ne_messages e).2.2.2)
      · simp at hmem

/-- A state whose last execution produced both an error and an empty row
set (mode `sql`). -/
def errAndNoRowsState : AgentState :=
  { initState "q1".toList "q".toList "text".toList with
    mode := "sql".toList,
    sql_result := some ⟨[], [], some "boom".toList⟩,
    attempts := 1 }

/-- Counterexample to C2 as stated: with an execution error and an empty
row set, the Validator reports exactly one SQL issue (the error), not two
distinct issues — the no-rows check is suppressed by the `elif`. -/
theorem validator_exclusive_counterexample :
    errAndNoRowsState.sql_result = some ⟨[], [], some "boom".toList⟩ ∧
    validateIssues errAndNoRowsState = ["SQL error: boom".toList] ∧
    "SQL returned no rows".toList ∉ validateIssues errAndNoRowsState := by
  refine ⟨by decide, by decide, by decide⟩

/-- Witness for C2 (amended), at the same concrete state. -/
theorem validator_sql_checks_witness :
    (errAndNoRowsState.mode = "sql".toList ∨
      errAndNoRowsState.mode = "hybrid".toList) ∧
    (("SQL error: ".toList ++ "boom".toList) ∈ validateIssues errAndNoRowsState ∧
      "SQL returned no rows".toList ∉ validateIssues errAndNoRowsState) :=
  ⟨Or.inl (by decide),
    (validator_sql_checks errAndNoRowsState (Or.inl (by decide))).1
      ⟨[], [], some "boom".toList⟩ "boom".toList (by decide) (by decide) (by decide)⟩

/-- Claim C6: for every state leaving Validating without `done`: if the
most recent query execution carried a (truthy) error the next node is
Generating, otherwise Synthesizing; and in particular after a first failed
execution (attempts = 1, mode sql/hybrid, execution error present)
validation does not pass and the machine goes from Validating back to
Generating with `attempts` still 1. -/
theorem validation_routing (s : AgentState) :
    ((validateRun s).done = false →
      nextNode .validateAndRepair (validateRun s) =
        (if errTruthy s.sql_result then Node.nl2sql else Node.synthesizer)) ∧
    (s.attempts = 1 → (s.mode = "sql".toList ∨ s.mode = "hybrid".toList) →
      errTruthy s.sql_result = true →
      ((validateRun s).done = false ∧
        nextNode .validateAndRepair (validateRun s) = Node.nl2sql ∧
        (validateRun s).attempts = 1)) := by
  constructor
  · intro hd
    have hd' : (validateIssues s).isEmpty = false ∧ ¬ (2 ≤ s.attempts) := by
      simpa [validateRun] using hd
    simp [nextNode, validateRun, hd'.1, hd'.2]
  · intro h1 hm he
    have hsne : sqlIssues s ≠ [] := by
      unfold sqlIssues
      rcases hm with h | h <;> simp [h, he]
    have hi : (validateIssues s).isEmpty = false := by
      cases hq : (validateIssues s).isEmpty
      · rfl
      · exfalso
        apply hsne
        have hnil := List.isEmpty_iff.1 hq
        unfold validateIssues at hnil
        simp only [List.append_eq_nil] at hnil
        exact hnil.2
    refine ⟨?_, ?_, ?_⟩
    · simp [validateRun, hi, h1]
    · simp [nextNode, validateRun, hi, h1, he]
    · simp [validateRun, h1]

/-- Witness for C6: the concrete one-failed-execution state routes back to
Generating with one attempt on the clock. -/
theorem validation_routing_witness :
    (errAndNoRowsState.attempts = 1 ∧
      errTruthy errAndNoRowsState.sql_result = true) ∧
    ((validateRun errAndNoRowsState).done = false ∧
      nextNode .validateAndRepair (validateRun errAndNoRowsState) = Node.nl2sql ∧
      (validateRun errAndNoRowsState).attempts = 1) :=
  ⟨⟨by decide, by decide⟩,
    (validation_routing errAndNoRowsState).2 (by decide) (Or.inl (by decide)) (by decide)⟩

/-- Helper: the batch loop emits exactly one record per input record. -/
theorem processBatchGo_length (run : BatchRunner) (idx : Nat) (items : List PyDict) :
    (processBatchGo run idx items).length = items.length := by
  induction items generalizing idx with
  | nil => rfl
  | cons item rest ih => simp [processBatchGo, ih]

/-- Helper: the `i`-th emitted record comes from the `i`-th input record
at positional index `idx + i`. -/
theorem processBatchGo_get (run : BatchRunner) (idx : Nat) (items : List PyDict)
    (i : Nat) (h : i < items.length) :
    (processBatchGo run idx items)[i]? =
      some (processOne run (idx + i) (items.get ⟨i, h⟩)) := by
  induction items generalizing idx i with
  | nil => simp at h
  | cons item rest ih =>
    cases i with
    | zero => simp [processBatchGo]
    | succ i =>
      have h' : i < rest.length := Nat.lt_of_succ_lt_succ h
      have hadd : idx + 1 + i = idx + (i + 1) := by omega
      show (processOne run idx item :: processBatchGo run (idx + 1) rest)[i + 1]? = _
      rw [List.getElem?_cons_succ, ih (idx + 1) i h', hadd]
      rfl

/-- Claim C10: the batch driver never rejects a record for lacking the
`question` key — the run proceeds with the question defaulted to the empty
string (alongside the positional id and `"text"` format-hint defaults) and
a result record is still emitted at that position. -/
theorem batch_missing_question (run : BatchRunner) (items : List PyDict) :
    (processBatch run items).length = items.length ∧
    (∀ i (h : i < items.length),
      dictGet (items.get ⟨i, h⟩) "question".toList = none →
      questionArg (items.get ⟨i, h⟩) = .vstr [] ∧
      (processBatch run items)[i]? =
        some (processOne run (i + 1) (items.get ⟨i, h⟩))) := by
  refine ⟨processBatchGo_length run 1 items, fun i h hq => ⟨?_, ?_⟩⟩
  · unfold questionArg
    rw [hq]
    rfl
  · show (processBatchGo run 1 items)[i]? = _
    rw [processBatchGo_get run 1 items i h]
    congr 2
    omega

/-- Witness for C10: a one-record batch whose record has no `question`
key still yields one output record, with the question defaulted to "". -/
theorem batch_missing_question_witness :
    dictGet [("id".toList, PyVal.vstr "a".toList)] "question".toList = none ∧
    (questionArg [("id".toList, PyVal.vstr "a".toList)] = .vstr [] ∧
      (processBatch (fun i q _ => .ok ⟨i, q, .vstr [], [], 0, .vstr []⟩)
          [[("id".toList, PyVal.vstr "a".toList)]])[0]? =
        some (processOne (fun i q _ => .ok ⟨i, q, .vstr [], [], 0, .vstr []⟩) 1
          [("id".toList, PyVal.vstr "a".toList)])) :=
  ⟨by decide,
    (batch_missing_question (fun i q _ => .ok ⟨i, q, .vstr [], [], 0, .vstr []⟩)
      [[("id".toList, PyVal.vstr "a".toList)]]).2 0 (by decide) (by decide)⟩

/-- Invariant of a rag-classified run: Generating and Executing are never
pending, and the query/result fields keep their initial values. -/
def RagInv (q : PyStr) (c : Config) : Prop :=
  c.st.question = q ∧ c.st.sql = [] ∧ c.st.sql_result = none ∧
  c.node ≠ .nl2sql ∧ c.node ≠ .executor ∧
  (c.node ≠ .router → c.st.mode = "rag".toList)

/-- Invariant of a sql-classified run: Retrieving is never pending and the
retrieved-passage list stays empty. -/
def SqlInv (q : PyStr) (c : Config) : Prop :=
  c.st.question = q ∧ c.st.retrieved_chunks = [] ∧
  c.node ≠ .retriever ∧
  (c.node ≠ .router → c.st.mode = "sql".toList)

/-- Helper: one step preserves the rag-run invariant. -/
theorem ragInv_step (O : Oracles) (q : PyStr)
    (hO : routerForward (O.routerMode q) = "rag".toList)
    (c : Config) (h : RagInv q c) : RagInv q (step O c) := by
  obtain ⟨hq, hsql, hres, hn1, hn2, hmode⟩ := h
  have dRagSql : ¬ (("rag".toList : PyStr) = "sql".toList) := by decide
  have dRagHyb : ¬ (("rag".toList : PyStr) = "hybrid".toList) := by decide
  rcases c with ⟨n, st⟩
  cases n <;>
    simp_all [RagInv, step, runNode, nextNode, errTruthy, validateRun] <;>
    split_ifs <;>
    simp_all

/-- Helper: the rag-run invariant holds along the whole run. -/
theorem ragInv_stepN (O : Oracles) (q : PyStr)
    (hO : routerForward (O.routerMode q) = "rag".toList)
    (c : Config) (h : RagInv q c) (n : Nat) : RagInv q (stepN O n c) := by
  induction n generalizing c with
  | zero => exact h
  | succ n ih => exact ih (step O c) (ragInv_step O q hO c h)

/-- Helper: one step preserves the sql-run invariant. -/
theorem sqlInv_step (O : Oracles) (q : PyStr)
    (hO : routerForward (O.routerMode q) = "sql".toList)
    (c : Config) (h : SqlInv q c) : SqlInv q (step O c) := by
  obtain ⟨hq, hchunks, hn1, hmode⟩ := h
  have dSqlRag : ¬ (("sql".toList : PyStr) = "rag".toList) := by decide
  have dSqlHyb : ¬ (("sql".toList : PyStr) = "hybrid".toList) := by decide
  rcases c with ⟨n, st⟩
  cases n <;>
    simp_all [SqlInv, step, runNode, nextNode, validateRun] <;>
    split_ifs <;>
    simp_all

/-- Helper: the sql-run invariant holds along the whole run. -/
theorem sqlInv_stepN (O : Oracles) (q : PyStr)
    (hO : routerForward (O.routerMode q) = "sql".toList)
    (c : Config) (h : SqlInv q c) (n : Nat) : SqlInv q (stepN O n c) := by
  induction n generalizing c with
  | zero => exact h
  | succ n ih => exact ih (step O c) (sqlInv_step O q hO c h)

/-- Claim C7: in a run whose question is classified `rag`, the Generating
and Executing nodes are never pending (so never executed) and the `sql`
field keeps its initial empty value; in a run classified `sql`, the
Retrieving node is never pending and the retrieved-passage list stays
empty. -/
theorem mode_gating (O : Oracles) (qid q fh : PyStr) (n : Nat) :
    (routerForward (O.routerMode q) = "rag".toList →
      (stepN O n (initConfig qid q fh)).node ≠ .nl2sql ∧
      (stepN O n (initConfig qid q fh)).node ≠ .executor ∧
      (stepN O n (initConfig qid q fh)).st.sql = []) ∧
    (routerForward (O.routerMode q) = "sql".toList →
      (stepN O n (initConfig qid q fh)).node ≠ .retriever ∧
      (stepN O n (initConfig qid q fh)).st.retrieved_chunks = []) := by
  constructor
  · intro hO
    have h0 : RagInv q (initConfig qid q fh) := by
      simp [RagInv, initConfig, initState]
    have h := ragInv_stepN O q hO _ h0 n
    exact ⟨h.2.2.2.1, h.2.2.2.2.1, h.2.1⟩
  · intro hO
    have h0 : SqlInv q (initConfig qid q fh) := by
      simp [SqlInv, initConfig, initState]
    have h := sqlInv_stepN O q hO _ h0 n
    exact ⟨h.2.2.1, h.2.1⟩

/-- Oracles of a run that the Router classifies as `rag` and whose
synthesis transform never produces citations. -/
def ragOracles : Oracles :=
  { routerMode := fun _ => "rag".toList,
    retrieve := fun _ _ => [],
    nl2sqlSql := fun _ _ _ => [],
    synth := fun _ _ _ _ _ =>
      { final_answer := .vstr [], citations := .vstr [],
        confidence := .vnone, explanation := [] },
    db := fun _ => .raises [],
    schema := [] }

/-- Oracles of a run that the Router classifies as `sql`. -/
def sqlOracles : Oracles :=
  { ragOracles with routerMode := fun _ => "sql".toList }

/-- Witness for C7: concrete rag- and sql-classified runs after six steps. -/
theorem mode_gating_witness :
    (routerForward (ragOracles.routerMode "q".toList) = "rag".toList ∧
      routerForward (sqlOracles.routerMode "q".toList) = "sql".toList) ∧
    ((stepN ragOracles 6 (initConfig "1".toList "q".toList "text".toList)).node ≠ .nl2sql ∧
      (stepN ragOracles 6 (initConfig "1".toList "q".toList "text".toList)).node ≠ .executor ∧
      (stepN ragOracles 6 (initConfig "1".toList "q".toList "text".toList)).st.sql = []) ∧
    ((stepN sqlOracles 6 (initConfig "1".toList "q".toList "text".toList)).node ≠ .retriever ∧
      (stepN sqlOracles 6 (initConfig "1".toList "q".toList "text".toList)).st.retrieved_chunks = []) :=
  ⟨⟨by decide, by decide⟩,
    (mode_gating ragOracles "1".toList "q".toList "text".toList 6).1 (by decide),
    (mode_gating sqlOracles "1".toList "q".toList "text".toList 6).2 (by decide)⟩

/-- Invariant bounding the `attempts` counter along any run: it never
exceeds 2, it is still 0 before the first Generating entry, and it is at
most 1 whenever Generating or Executing is pending. -/
def AttemptsInv (c : Config) : Prop :=
  c.st.attempts ≤ 2 ∧
  ((c.node = .router ∨ c.node = .retriever ∨ c.node = .planner) →
    c.st.attempts = 0) ∧
  ((c.node = .nl2sql ∨ c.node = .executor) → c.st.attempts ≤ 1)

/-- Helper: one step preserves the attempts invariant. -/
theorem attemptsInv_step (O : Oracles) (c : Config) (h : AttemptsInv c) :
    AttemptsInv (step O c) := by
  obtain ⟨h2, h0, h1⟩ := h
  rcases c with ⟨n, st⟩
  cases n <;>
    simp_all [AttemptsInv, step, runNode, nextNode, validateRun] <;>
    split_ifs <;>
    simp_all <;>
    omega

/-- Helper: the attempts invariant holds along the whole run. -/
theorem attemptsInv_stepN (O : Oracles) (c : Config) (h : AttemptsInv c)
    (n : Nat) : AttemptsInv (stepN O n c) := by
  induction n generalizing c with
  | zero => exact h
  | succ n ih => exact ih (step O c) (attemptsInv_step O c h)

/-- Claim C1 (amended): at every point of every run — whatever the
Validator reports and whatever the model-backed transforms return — the
`attempts` counter is in `{0, 1, 2}`.  The termination half of the
original claim is false: the counter only advances on Executing passes,
so a run whose validation keeps failing with no execution error cycles
between Synthesizing and Validating forever (see the counterexample). -/
theorem attempts_bounded (O : Oracles) (qid q fh : PyStr) (n : Nat) :
    (stepN O n (initConfig qid q fh)).st.attempts = 0 ∨
    (stepN O n (initConfig qid q fh)).st.attempts = 1 ∨
    (stepN O n (initConfig qid q fh)).st.attempts = 2 := by
  have h0 : AttemptsInv (initConfig qid q fh) := by
    simp [AttemptsInv, initConfig, initState]
  have h := (attemptsInv_stepN O _ h0 n).1
  omega

/-- Helper: a 2-periodic configuration is fixed by any even number of
steps. -/
theorem stepN_two_mul_fixed (O : Oracles) (c : Config)
    (h : stepN O 2 c = c) (k : Nat) : stepN O (2 * k) c = c := by
  induction k with
  | zero => rfl
  | succ k ih =>
    have he : 2 * (k + 1) = 2 * k + 2 := by omega
    rw [he, stepN_add O (2 * k) 2 c, h, ih]

/-- The initial configuration of the non-terminating run. -/
def cycleStart : Config := initConfig "q1".toList "Which policy?".toList "text".toList

/-- Counterexample to C1 as stated: under `ragOracles` (mode `rag`, a
synthesis transform that never cites), the run never reaches Terminal —
`attempts` stays 0, validation keeps reporting `Missing citations`, and
the machine cycles between Synthesizing and Validating forever. -/
theorem rag_run_nonterminating :
    ¬ ∃ n, (stepN ragOracles n cycleStart).node = Node.terminal := by
  rintro ⟨n, hn⟩
  have hcyc : stepN ragOracles 2 (stepN ragOracles 5 cycleStart)
      = stepN ragOracles 5 cycleStart := by
    rw [← stepN_add]
    decide
  rcases Nat.lt_or_ge n 5 with h5 | h5
  · interval_cases n <;> revert hn <;> decide
  · obtain ⟨m, rfl⟩ : ∃ m, n = m + 5 := ⟨n - 5, by omega⟩
    rw [stepN_add ragOracles m 5 cycleStart] at hn
    have hm : m = m % 2 + 2 * (m / 2) := by omega
    rw [hm, stepN_add ragOracles (m % 2) (2 * (m / 2)) _,
      stepN_two_mul_fixed ragOracles _ hcyc (m / 2)] at hn
    rcases Nat.mod_two_eq_zero_or_one m with h2 | h2 <;> rw [h2] at hn <;>
      revert hn <;> decide
